import Mathlib

/-!
Verification of the OpenFoodFacts → EatNLift normalizer (`main.go` of
`eatnlift/openfoodfacts-to-eatnlift`).

The Go source is shallowly embedded: Go `float64` values are modelled as
exact rationals (`ℚ`) — every claim under scrutiny compares the very
expressions the code computes, so no rounding behaviour is relevant — and
Go strings are modelled as `String` / `List Char`, with the ASCII fragment
of Go's Unicode case folding and whitespace (all table keys and all inputs
appearing in the claims are ASCII).  Go's regexp patterns are embedded as
dedicated recognizer functions that implement the leftmost / first-match
(Perl-style) semantics of Go's `regexp` package for the concrete patterns
appearing in the source.
-/

-- Batteries marks the `Rat` arithmetic irreducible, which blocks `decide`
-- from evaluating the embedded (exact-rational) float computations; restore
-- the ordinary reducibility of those plain definitions for this file.
set_option allowUnsafeReducibility true
attribute [local semireducible] Rat.add Rat.mul Rat.inv Rat.sub Rat.ofScientific Rat.neg

/-- Character list; most of the string plumbing works on these. -/
abbrev Chars := List Char

/-- What the Go regexp escape `\s` matches (RE2 without Unicode classes):
space, tab, newline, form feed, carriage return. -/
def reSpace (c : Char) : Bool :=
  c == ' ' || c == '\t' || c == '\n' || c == '\x0c' || c == '\r'

/-- ASCII fragment of Go `unicode.IsSpace` (adds vertical tab to `reSpace`).
Used by `strings.TrimSpace`. -/
def goIsSpace (c : Char) : Bool :=
  c == ' ' || c == '\t' || c == '\n' || c == '\x0b' || c == '\x0c' || c == '\r'

/-- Drop trailing characters satisfying `p`. -/
def dropTrailing (p : Char → Bool) (cs : Chars) : Chars :=
  (cs.reverse.dropWhile p).reverse

/-- `strings.TrimSpace` on char lists (ASCII fragment). -/
def goTrimSpace (cs : Chars) : Chars :=
  dropTrailing goIsSpace (cs.dropWhile goIsSpace)

/-- `strings.TrimSuffix`: remove `sfx` once if the string ends with it. -/
def goTrimSuffix (sfx cs : Chars) : Chars :=
  if sfx.isSuffixOf cs then cs.take (cs.length - sfx.length) else cs

/-- `strings.TrimPrefix`: remove `pre` once if the string starts with it. -/
def goTrimStart (pre cs : Chars) : Chars :=
  if pre.isPrefixOf cs then cs.drop pre.length else cs

/-- `strings.Trim(s, "|")`: strip the cut character from both ends. -/
def goTrimChar (c : Char) (cs : Chars) : Chars :=
  dropTrailing (· == c) (cs.dropWhile (· == c))

/-- ASCII lower-casing of a string (Go `strings.ToLower` on ASCII input). -/
def goToLower (s : String) : String :=
  String.mk (s.data.map Char.toLower)

/-- ASCII upper-casing of a string (Go `strings.ToUpper` on ASCII input). -/
def goToUpper (s : String) : String :=
  String.mk (s.data.map Char.toUpper)

/-- `strings.Split(s, sep)` for a one-character separator: Go returns the
(possibly empty) pieces between separators, so the empty string splits to
`[""]`. -/
def goSplitChar (sep : Char) : Chars → List Chars
  | [] => [[]]
  | c :: cs =>
    if c == sep then [] :: goSplitChar sep cs
    else
      match goSplitChar sep cs with
      | [] => [[c]]
      | p :: ps => (c :: p) :: ps

/-- `strings.ReplaceAll` (non-empty pattern), fueled recursion; each step
consumes at least one character, so `cs.length + 1` fuel is exact. -/
def replaceAllGo : ℕ → Chars → Chars → Chars → Chars
  | 0, _, _, cs => cs
  | fuel + 1, pat, rep, cs =>
    match cs with
    | [] => []
    | c :: rest =>
      if pat ≠ [] ∧ pat.isPrefixOf (c :: rest) then
        rep ++ replaceAllGo fuel pat rep ((c :: rest).drop pat.length)
      else
        c :: replaceAllGo fuel pat rep rest

/-- `strings.ReplaceAll pat rep` on char lists. -/
def replaceAll (pat rep cs : Chars) : Chars :=
  replaceAllGo (cs.length + 1) pat rep cs

/-- The regexp rewrite backslash-s-plus to a single space: collapse every
whitespace run to one space.  The flag records whether the previous
character belonged to a run already emitted. -/
def collapseWs : Bool → Chars → Chars
  | _, [] => []
  | inRun, c :: rest =>
    if reSpace c then
      if inRun then collapseWs true rest else ' ' :: collapseWs true rest
    else c :: collapseWs false rest

/-- Value of a non-empty digit string. -/
def digitsVal (cs : Chars) : ℕ :=
  cs.foldl (fun n c => 10 * n + (c.toNat - 48)) 0

/-- Maximal match of the regexp `\d*\.?\d+` at the front of the string:
returns the matched token and the rest.  (Greedy with backtracking: a bare
integer, or digits-dot-digits, or dot-digits.) -/
def numTok (cs : Chars) : Option (Chars × Chars) :=
  let d1 := cs.takeWhile Char.isDigit
  let r1 := cs.drop d1.length
  match r1 with
  | '.' :: r2 =>
    let d2 := r2.takeWhile Char.isDigit
    if d2 ≠ [] then some (d1 ++ '.' :: d2, r2.drop d2.length)
    else if d1 ≠ [] then some (d1, r1) else none
  | _ => if d1 ≠ [] then some (d1, r1) else none

/-- Exact value of a `\d*\.?\d+` token.  (Go re-parses these captures with
`strconv.ParseFloat`, which never fails on them; the `err != nil` fallbacks
attached to those parses in the source are unreachable.) -/
def tokVal (cs : Chars) : ℚ :=
  let ip := cs.takeWhile Char.isDigit
  match cs.drop ip.length with
  | '.' :: fs => (digitsVal ip : ℚ) + (digitsVal fs : ℚ) / (10 : ℚ) ^ fs.length
  | _ => (digitsVal ip : ℚ)

/-- `strconv.ParseFloat` on a whole string, for the ordinary decimal forms
`[+|-] (digits [. digits] | digits . | . digits) [e|E [+|-] digits]`.
The exotic accepted forms (`Inf`, `NaN`, hex floats, digit underscores)
have no finite decimal value and are not modelled. -/
def goParseFloat (cs : Chars) : Option ℚ :=
  let step2 : Chars → Option (ℚ × Chars) := fun t =>
    let d1 := t.takeWhile Char.isDigit
    let r1 := t.drop d1.length
    match r1 with
    | '.' :: r2 =>
      let d2 := r2.takeWhile Char.isDigit
      if d1 = [] ∧ d2 = [] then none
      else some ((digitsVal d1 : ℚ) + (digitsVal d2 : ℚ) / (10 : ℚ) ^ d2.length,
                 r2.drop d2.length)
    | _ => if d1 = [] then none else some ((digitsVal d1 : ℚ), r1)
  let expPart : Chars → Option ℤ := fun t =>
    match t with
    | [] => some 0
    | e :: r =>
      if e == 'e' || e == 'E' then
        let (sgn, r2) : ℤ × Chars :=
          match r with
          | '+' :: r3 => (1, r3)
          | '-' :: r3 => (-1, r3)
          | _ => (1, r)
        let ds := r2.takeWhile Char.isDigit
        if ds ≠ [] ∧ r2.drop ds.length = [] then some (sgn * digitsVal ds) else none
      else none
  let (sgn, t) : ℚ × Chars :=
    match cs with
    | '+' :: r => (1, r)
    | '-' :: r => (-1, r)
    | _ => (1, cs)
  match step2 t with
  | none => none
  | some (m, rest) =>
    match expPart rest with
    | none => none
    | some e => some (sgn * m * (10 : ℚ) ^ e)

/-- A decoded JSON value sitting in the `nutriments` map
(Go `map[string]interface{}`): a number, a string, or anything else. -/
inductive GoValue where
  | num (q : ℚ)
  | str (s : String)
  | other
deriving DecidableEq

/-- The `nutriments` mapping.  Go map keys are unique; lookup is modelled by
association-list lookup. -/
abbrev Nutriments := List (String × GoValue)

/-- `toFloat64` (main.go:555): accept a native number, or a numeric string
after trimming whitespace; anything else fails. -/
def toFloat64 : GoValue → Option ℚ
  | .num q => some q
  | .str s => goParseFloat (goTrimSpace s.data)
  | .other => none

/-- The unit-conversion switch inside `mapNutrient` (main.go:541):
`g_to_mg` multiplies by 1000, `g_to_ug` by 1e6, anything else is identity. -/
def applyConv (unitConversion : String) (f : ℚ) : ℚ :=
  if unitConversion = "g_to_mg" then f * 1000
  else if unitConversion = "g_to_ug" then f * 1000000
  else f

/-- `mapNutrient` (main.go:537): walk the candidate keys in order; on the
first key that is present in the map AND whose value coerces via
`toFloat64`, write the converted value; a present key whose value fails to
coerce is skipped and the walk continues.  If no key succeeds the field
keeps its previous value (`field`, always 0 at the call sites). -/
def mapNutrient (field : ℚ) (nutriments : Nutriments) (unitConversion : String) :
    List String → ℚ
  | [] => field
  | key :: keys =>
    match nutriments.lookup key with
    | some value =>
      match toFloat64 value with
      | some fval => applyConv unitConversion fval
      | none => mapNutrient field nutriments unitConversion keys
    | none => mapNutrient field nutriments unitConversion keys

/-- `AllergenMap` (main.go:100): the static raw-token → canonical-token
dictionary, in source order. -/
def AllergenMap : List (String × String) := [
  ("MILK", "milk"),
  ("EGGS", "eggs"),
  ("EGG", "eggs"),
  ("FISH", "fish"),
  ("SHELLFISH", "shellfish"),
  ("CRUSTACEAN SHELLFISH", "crustacean_shellfish"),
  ("CRUSTACEAN_SHELLFISH", "crustacean_shellfish"),
  ("TREE NUTS", "tree_nuts"),
  ("TREE_NUTS", "tree_nuts"),
  ("PEANUTS", "peanuts"),
  ("PEANUT", "peanuts"),
  ("WHEAT", "wheat"),
  ("SOY", "soy"),
  ("SOYBEAN", "soy"),
  ("SOYBEANS", "soy"),
  ("SESAME", "sesame"),
  ("ALMONDS", "almonds"),
  ("ALMOND", "almonds"),
  ("NUTS", "nuts"),
  ("BRAZIL NUT", "brazil_nuts"),
  ("BRAZIL_NUT", "brazil_nuts"),
  ("BRAZIL NUTS", "brazil_nuts"),
  ("BRAZIL_NUTS", "brazil_nuts"),
  ("CASHEWS", "cashews"),
  ("HAZELNUTS", "hazelnuts"),
  ("MACADAMIA NUTS", "macadamia_nuts"),
  ("MACADAMIA_NUTS", "macadamia_nuts"),
  ("PECANS", "pecans"),
  ("PINE NUTS", "pine_nuts"),
  ("PINE_NUTS", "pine_nuts"),
  ("PISTACHIOS", "pistachios"),
  ("WALNUTS", "walnuts"),
  ("ANCHOVY", "anchovy"),
  ("COD", "cod"),
  ("MAHI MAHI", "mahi_mahi"),
  ("MAHI_MAHI", "mahi_mahi"),
  ("SALMON", "salmon"),
  ("TUNA", "tuna"),
  ("CRAB", "crab"),
  ("CRABS", "crab"),
  ("LOBSTER", "lobster"),
  ("LOBSTERS", "lobster"),
  ("SHRIMP", "shrimp"),
  ("SHRIMPS", "shrimp"),
  ("CLAMS", "clams"),
  ("CLAM", "clams"),
  ("MUSSELS", "mussels"),
  ("MUSSEL", "mussels"),
  ("OYSTERS", "oysters"),
  ("OYSTER", "oysters"),
  ("SCALLOPS", "scallops"),
  ("SCALLOP", "scallops"),
  ("BARLEY", "barley"),
  ("RYE", "rye"),
  ("OATS", "oats"),
  ("TRITICALE", "triticale"),
  ("GLUTEN", "gluten"),
  ("CELERY", "celery"),
  ("MUSTARD", "mustard"),
  ("SULFITES", "sulfites"),
  ("LUPIN", "lupin"),
  ("MOLLUSKS", "mollusks"),
  ("CORN", "corn"),
  ("GELATIN", "gelatin"),
  ("SEEDS", "seeds"),
  ("SUNFLOWER SEEDS", "sunflower_seeds"),
  ("SUNFLOWER_SEEDS", "sunflower_seeds"),
  ("POPPY SEEDS", "poppy_seeds"),
  ("POPPY_SEEDS", "poppy_seeds"),
  ("COTTONSEED", "cottonseed"),
  ("COCONUT", "coconut"),
  ("PALM", "palm"),
  ("BUCKWHEAT", "buckwheat"),
  ("BEEF", "beef"),
  ("PORK", "pork"),
  ("CHICKEN", "chicken"),
  ("GARLIC", "garlic"),
  ("ONION", "onion"),
  ("TOMATO", "tomato"),
  ("LATEX", "latex"),
  ("CARMINE", "carmine"),
  ("COCHINEAL", "cochineal"),
  ("ANNATTO", "annatto"),
  ("MSG", "msg"),
  ("SULFUR DIOXIDE", "sulfur_dioxide"),
  ("SULFUR_DIOXIDE", "sulfur_dioxide"),
  ("BENZOATES", "benzoates"),
  ("FOOD COLORS", "food_colors"),
  ("FOOD_COLORS", "food_colors"),
  ("YELLOW 5", "yellow_5"),
  ("YELLOW_5", "yellow_5"),
  ("RED 40", "red_40"),
  ("RED_40", "red_40")]

/-- The key under which `normalizeAllergen` / `extractIngredientAllergen`
look a raw string up: trim, upper-case, strip a leading `EN:`. -/
def allergenKey (allergen : String) : String :=
  String.mk (goTrimStart "EN:".data (goToUpper (String.mk (goTrimSpace allergen.data))).data)

/-- `normalizeAllergen` (main.go:566): dictionary hit, or the lower-cased
original on a miss. -/
def normalizeAllergen (allergen : String) : String :=
  match AllergenMap.lookup (allergenKey allergen) with
  | some normalized => normalized
  | none => goToLower allergen

/-- `extractIngredientAllergen` (main.go:580): dictionary hit, or the empty
string on a miss. -/
def extractIngredientAllergen (ingredientTag : String) : String :=
  match AllergenMap.lookup (allergenKey ingredientTag) with
  | some normalized => normalized
  | none => ""

/-- `convertToGrams` (main.go:1081): grams-per-unit table.  The Go float
literals `28.3495` and `453.592` are modelled by their exact decimal
values; unknown units yield 0 ("unknown", not an error). -/
def convertToGrams (quantity : ℚ) (unit : String) : ℚ :=
  let u := goToLower unit
  if u = "g" ∨ u = "gram" ∨ u = "grams" ∨ u = "gr" ∨ u = "grm" ∨ u = "g." ∨
      u = "gr." ∨ u = "grm." then quantity
  else if u = "kg" ∨ u = "kilogram" ∨ u = "kilograms" then quantity * 1000
  else if u = "mg" ∨ u = "milligram" ∨ u = "milligrams" then quantity * mkRat 1 1000
  else if u = "oz" ∨ u = "ounces" ∨ u = "oz." ∨ u = "ounce" ∨ u = "onz" ∨
      u = "ozn" ∨ u = "oza" then quantity * (28.3495 : ℚ)
  else if u = "lb" ∨ u = "pound" ∨ u = "pounds" then quantity * (453.592 : ℚ)
  else if u = "ml" then quantity
  else if u = "l" ∨ u = "liter" ∨ u = "litre" ∨ u = "liters" ∨ u = "litres" then
    quantity * 1000
  else 0

/-- `isMetricUnit` (main.go:1103): membership in the fixed metric-unit set
(applied to an already lower-cased label). -/
def isMetricUnit (unit : String) : Bool :=
  ["g", "gram", "grams", "gr", "grm", "g.", "gr.", "grm.", "kg", "kilogram",
   "kilograms", "ml", "l", "liter", "litre", "liters", "litres"].contains unit

/-- `isImperialUnit` (main.go:1114): membership in the fixed imperial-unit
set. -/
def isImperialUnit (unit : String) : Bool :=
  ["oz", "ounce", "ounces", "onz", "ozn", "oza", "lb", "pound", "pounds",
   "fl oz"].contains unit

/-- `estimateWeightFromUnit` (main.go:1061): approximate grams for a few
descriptive units. -/
def estimateWeightFromUnit (quantity : ℚ) (unit : String) : ℚ :=
  let u := goToLower unit
  if u = "cup" ∨ u = "cups" then quantity * 240
  else if u = "tbsp" ∨ u = "tablespoon" ∨ u = "tablespoons" then quantity * 15
  else if u = "tsp" ∨ u = "teaspoon" ∨ u = "teaspoons" then quantity * 5
  else if u = "slice" ∨ u = "slices" then quantity * 28
  else if u = "cookie" ∨ u = "cookies" then quantity * 15
  else 0

/-- Case-insensitive literal front match: does `cs` start with `alt`
(given lower-cased)? -/
def ciAtFront (alt cs : Chars) : Bool :=
  ((cs.take alt.length).map Char.toLower) == alt

/-- First alternative (tried in source order, Go regexps use Perl-style
alternation) that matches the front of `cs` case-insensitively AND whose
remainder is optional-whitespace followed by exactly a closing parenthesis
ending the string (the continuation of the regexp fragment composed of the
alternation, optional whitespace, a closing parenthesis and the anchor).
Returns the matched text in its original case. -/
def altThenClose (alts : List Chars) (cs : Chars) : Option Chars :=
  match alts with
  | [] => none
  | a :: rest =>
    if ciAtFront a cs ∧ (cs.drop a.length).dropWhile reSpace = [')'] then
      some (cs.take a.length)
    else altThenClose rest cs

/-- First alternative matching the front of `cs` case-insensitively with
the remainder empty (alternation directly followed by the end anchor). -/
def altThenEnd (alts : List Chars) (cs : Chars) : Option Chars :=
  match alts with
  | [] => none
  | a :: rest =>
    if ciAtFront a cs ∧ cs.drop a.length = [] then some (cs.take a.length)
    else altThenEnd rest cs

/-- First alternative matching the front of `cs` case-insensitively, with
no constraint on what follows (used by the unanchored search regexp of
`extractWeightFromMeasurementUnit`). -/
def altAtFront (alts : List Chars) (cs : Chars) : Option Chars :=
  match alts with
  | [] => none
  | a :: rest =>
    if ciAtFront a cs then some (cs.take a.length) else altAtFront rest cs

/-- The unit alternation of the regexp inside
`extractWeightFromMeasurementUnit` (main.go:1047), in source order. -/
def extractWeightAlts : List Chars :=
  ["g".data, "gr".data, "grm".data, "gram".data, "kg".data, "mg".data,
   "ml".data, "l".data, "oz".data, "ounces".data, "fl oz".data]

/-- A match of `(\d*\.?\d+)\s*(g|gr|grm|gram|kg|mg|ml|l|oz|ounces|fl oz)`
starting exactly at the front of `cs`: the number value and the unit text
as matched. -/
def weightExprAt (cs : Chars) : Option (ℚ × Chars) :=
  match numTok cs with
  | none => none
  | some (t, r) =>
    match altAtFront extractWeightAlts (r.dropWhile reSpace) with
    | none => none
    | some u => some (tokVal t, u)

/-- Leftmost-match scan for `extractWeightFromMeasurementUnit`: try a
match at every position, left to right. -/
def extractWeightScan : Chars → ℚ
  | [] => 0
  | c :: rest =>
    match weightExprAt (c :: rest) with
    | some (v, u) => convertToGrams v (String.mk u)
    | none => extractWeightScan rest

/-- `extractWeightFromMeasurementUnit` (main.go:1046): unanchored leftmost
search for an embedded weight expression inside the resolved unit label;
0 when none is found. -/
def extractWeightFromMeasurementUnit (measurementUnit : String) : ℚ :=
  extractWeightScan measurementUnit.data

/-- One step of `handleDescriptors`: the anchored case-insensitive regexp
`^<descriptor>\s+` replaced by the empty string (strips the descriptor word
and the following whitespace run when the string starts with them). -/
def stripDescriptor (desc : Chars) (cs : Chars) : Chars :=
  match cs.drop desc.length with
  | [] => cs
  | c :: _ =>
    if ciAtFront desc cs ∧ reSpace c then (cs.drop desc.length).dropWhile reSpace
    else cs

/-- `handleDescriptors` (main.go:1036): strip the leading descriptor words,
in source order. -/
def handleDescriptors (cs : Chars) : Chars :=
  ["chips".data, "slice".data, "slices".data, "cookie".data, "cookies".data,
   "pouch".data, "pouches".data, "can".data, "cans".data, "bottle".data,
   "bottles".data, "box".data, "boxes".data, "bag".data, "bags".data,
   "piece".data, "pieces".data].foldl (fun s d => stripDescriptor d s) cs

/-- A match of the fraction regexp `(\d+)\s*/\s*(\d+)` starting exactly at
the front of `cs`: (matched text, numerator, denominator, rest). -/
def fracAt (cs : Chars) : Option (Chars × ℕ × ℕ × Chars) :=
  let d1 := cs.takeWhile Char.isDigit
  if d1 = [] then none
  else
    let r1 := cs.drop d1.length
    let s1 := r1.takeWhile reSpace
    match r1.drop s1.length with
    | '/' :: r2 =>
      let s2 := r2.takeWhile reSpace
      let r3 := r2.drop s2.length
      let d2 := r3.takeWhile Char.isDigit
      if d2 = [] then none
      else some (d1 ++ s1 ++ '/' :: s2 ++ d2, digitsVal d1, digitsVal d2,
                 r3.drop d2.length)
    | _ => none

/-- All leftmost non-overlapping fraction matches, scanning left to right
(`FindAllStringSubmatch`).  Fueled: every step consumes at least one
character. -/
def findFracs : ℕ → Chars → List (Chars × ℕ × ℕ)
  | 0, _ => []
  | _ + 1, [] => []
  | fuel + 1, c :: rest =>
    match fracAt (c :: rest) with
    | some (txt, n, d, after) => (txt, n, d) :: findFracs fuel after
    | none => findFracs fuel rest

/-- `fmt.Sprintf("%.4f", v)` for the non-negative values produced by
`convertFractions`: the value rounded to four decimal places (modelled as
round-half-up on the exact rational; the Go code rounds the binary float64
quotient, which agrees on all non-tie values) rendered with exactly four
fractional digits. -/
def fmt4 (q : ℚ) : Chars :=
  let n : ℤ := Rat.floor (q * 10000 + mkRat 1 2)
  let ip := n.toNat / 10000
  let fp := n.toNat % 10000
  let fpd := (Nat.repr fp).data
  (Nat.repr ip).data ++ '.' :: (List.replicate (4 - fpd.length) '0' ++ fpd)

/-- `convertFractions` (main.go:1010): collect every fraction match, then
for each match with non-zero denominator replace all occurrences of the
matched text by the 4-decimal quotient. -/
def convertFractions (cs : Chars) : Chars :=
  (findFracs (cs.length + 1) cs).foldl
    (fun s m =>
      match m with
      | (txt, n, d) => if d ≠ 0 then replaceAll txt (fmt4 (mkRat n d)) s else s)
    cs

/-- A match of `\([^()]*\)` starting exactly at the front of `cs`:
(matched text, rest). -/
def parenGroupAt (cs : Chars) : Option (Chars × Chars) :=
  match cs with
  | '(' :: r =>
    let body := r.takeWhile (fun c => c ≠ '(' ∧ c ≠ ')')
    match r.drop body.length with
    | ')' :: after => some ('(' :: body ++ [')'], after)
    | _ => none
  | _ => none

/-- Leftmost `\([^()]*\)` match: returns the input up to and including the
first parenthesized group, and the rest after it. -/
def findFirstGroup (acc : Chars) (cs : Chars) : Option (Chars × Chars) :=
  match cs with
  | [] => none
  | c :: rest =>
    match parenGroupAt (c :: rest) with
    | some (txt, after) => some (acc.reverse ++ txt, after)
    | none => findFirstGroup (c :: acc) rest

/-- `removeNestedParentheses` (main.go:1025): when the string holds more
than one `\([^()]*\)` group, truncate it at the end of the first group;
otherwise leave it unchanged. -/
def removeNestedParentheses (cs : Chars) : Chars :=
  match findFirstGroup [] cs with
  | none => cs
  | some (upToFirst, after) =>
    if (findFirstGroup [] after).isSome then upToFirst else cs

/-- The cleaning pipeline at the top of `parseServingSize`
(main.go:593-623), step for step in source order. -/
def cleanServing (cs : Chars) : Chars :=
  let s1 := goTrimSpace cs
  let s2 := goTrimSpace s1
  let s3 := goTrimSuffix "|".data s2
  let s4 := replaceAll "OZA".data "OZ".data s3
  let s5 := replaceAll "OZN".data "OZ".data s4
  let s6 := replaceAll "ONZ".data "OZ".data s5
  let s7 := replaceAll "Amount per serving".data "Serving".data s6
  let s8 := replaceAll "FL.OZ".data "FL OZ".data s7
  let s9 := replaceAll ",".data ".".data s8
  let s10 := collapseWs false s9
  let s11 := goTrimChar '|' s10
  let s12 := handleDescriptors s11
  let s13 := replaceAll ",".data ".".data s12
  let s14 := convertFractions s13
  removeNestedParentheses s14

/-- Unit classification shared by the parser branches (main.go:695 etc.):
metric is 1, imperial is 2, anything else 3.  Applied to the lower-cased
resolved label. -/
def unitClass (lowerUnit : String) : ℕ :=
  if isMetricUnit lowerUnit then 1 else if isImperialUnit lowerUnit then 2 else 3

/-- Pattern 1 (main.go:626), case-SENSITIVE:
`^(\d*\.?\d+)\s*(g|gr|grm|gram|kg|mg|ml|l)$`.  Matches when the rest after
the number and the whitespace is exactly one of the lower-case unit
tokens. -/
def match1 (cs : Chars) : Option (ℚ × Chars) :=
  match numTok cs with
  | none => none
  | some (t, r) =>
    let u := r.dropWhile reSpace
    if ["g".data, "gr".data, "grm".data, "gram".data, "kg".data, "mg".data,
        "ml".data, "l".data].contains u
    then some (tokVal t, u) else none

/-- The parenthetical weight group `\(\s*(\d*\.?\d+)\s*(alts)\s*\)` pinned
to the end of the string (the group is followed by the anchor in patterns
2-4): number value and the unit text as matched. -/
def parseWeightParen (alts : List Chars) (post : Chars) : Option (ℚ × Chars) :=
  match post with
  | '(' :: r =>
    match numTok (r.dropWhile reSpace) with
    | none => none
    | some (t, r2) =>
      match altThenClose alts (r2.dropWhile reSpace) with
      | none => none
      | some u => some (tokVal t, u)
  | _ => none

/-- The lazy label `([^\(]+?)\s*` of patterns 2/3 over the part `pre` of
the string before the first parenthesis (or the whole string): the
captured label.  Fails only when `pre` is empty; an all-whitespace `pre`
captures a single space (which the caller trims away, as Go does). -/
def labelCap (pre : Chars) : Option Chars :=
  if pre = [] then none
  else
    let l := dropTrailing reSpace pre
    some (if l = [] then [' '] else l)

/-- The optional-quantity head `(?:(\d*\.?\d+)\s+)?` of pattern 2 followed
by the lazy label: Perl-style, the greedy optional group is taken whenever
the number and at least one space are present and a non-empty label
remains; when only whitespace remains after the number, backtracking
shortens the whitespace (two or more spaces) or drops the quantity group
altogether (exactly one space). -/
def qtyLabel (pre : Chars) : Option (Option ℚ × Chars) :=
  match numTok pre with
  | some (t, r) =>
    match r with
    | c :: _ =>
      if reSpace c then
        let r1 := r.dropWhile reSpace
        if r1 ≠ [] then some (some (tokVal t), dropTrailing reSpace r1)
        else if 2 ≤ r.length then some (some (tokVal t), [' '])
        else (labelCap pre).map (fun l => (none, l))
      else (labelCap pre).map (fun l => (none, l))
    | [] => (labelCap pre).map (fun l => (none, l))
  | none => (labelCap pre).map (fun l => (none, l))

/-- Pattern 2 (main.go:652), case-insensitive:
`^(?:(\d*\.?\d+)\s+)?([^\(]+?)\s*(?:\(\s*(\d*\.?\d+)\s*(g|gr|grm|gram|kg|mg|ml|l|oz|fl oz|ounces|cup|cups)\s*\))?$`.
The label cannot contain an opening parenthesis, so it ends before the
first one; when the string contains a parenthesis the whole parenthetical
weight group must then match up to the anchor. -/
def match2 (cs : Chars) : Option (Option ℚ × Chars × Option (ℚ × Chars)) :=
  let pre := cs.takeWhile (fun c => c ≠ '(')
  match cs.drop pre.length with
  | [] => (qtyLabel pre).map (fun ql => (ql.1, ql.2, none))
  | post =>
    match parseWeightParen
        ["g".data, "gr".data, "grm".data, "gram".data, "kg".data, "mg".data,
         "ml".data, "l".data, "oz".data, "fl oz".data, "ounces".data,
         "cup".data, "cups".data] post with
    | none => none
    | some w => (qtyLabel pre).map (fun ql => (ql.1, ql.2, some w))

/-- The mandatory-quantity head `(?:(\d*\.?\d+)\s+(L))` of patterns 3/4
with the lazy label `L = [^\(]+?`. -/
def qtyLabelReq (pre : Chars) : Option (ℚ × Chars) :=
  match numTok pre with
  | some (t, r) =>
    match r with
    | c :: _ =>
      if reSpace c then
        let r1 := r.dropWhile reSpace
        if r1 ≠ [] then some (tokVal t, dropTrailing reSpace r1)
        else if 2 ≤ r.length then some (tokVal t, [' '])
        else none
      else none
    | [] => none
  | none => none

/-- Pattern 3 (main.go:708), case-insensitive: like pattern 2 but the
quantity is mandatory and the parenthetical unit set lacks cup/cups. -/
def match3 (cs : Chars) : Option (ℚ × Chars × Option (ℚ × Chars)) :=
  let pre := cs.takeWhile (fun c => c ≠ '(')
  match qtyLabelReq pre with
  | none => none
  | some (q, lbl) =>
    match cs.drop pre.length with
    | [] => some (q, lbl, none)
    | post =>
      match parseWeightParen
          ["g".data, "gr".data, "grm".data, "gram".data, "kg".data, "mg".data,
           "ml".data, "l".data, "oz".data, "fl oz".data, "ounces".data] post with
      | none => none
      | some w => some (q, lbl, some w)

/-- Pattern 4 (main.go:754), case-insensitive: mandatory quantity, label,
and a mandatory parenthetical weight whose unit set lacks mg. -/
def match4 (cs : Chars) : Option (ℚ × Chars × ℚ × Chars) :=
  let pre := cs.takeWhile (fun c => c ≠ '(')
  match qtyLabelReq pre with
  | none => none
  | some (q, lbl) =>
    match parseWeightParen
        ["g".data, "gr".data, "grm".data, "gram".data, "kg".data, "ml".data,
         "l".data, "oz".data, "fl oz".data, "ounces".data] (cs.drop pre.length) with
    | none => none
    | some (wv, wu) => some (q, lbl, wv, wu)

/-- The continuation of pattern 5 after one of the ounce alternatives:
`\s*/\s*(\d*\.?\d+)\s*(g|gr|grm|gram)$`; yields the gram value. -/
def match5Slash (cs : Chars) : Option ℚ :=
  match cs.dropWhile reSpace with
  | '/' :: r =>
    match numTok (r.dropWhile reSpace) with
    | none => none
    | some (t2, r2) =>
      match altThenEnd ["g".data, "gr".data, "grm".data, "gram".data]
          (r2.dropWhile reSpace) with
      | none => none
      | some _ => some (tokVal t2)
  | _ => none

/-- The tail of pattern 5 after the lazy label:
`\s+(\d*\.?\d+)\s*(oz|ounces)\s*/\s*(\d*\.?\d+)\s*(g|gr|grm|gram)$`. -/
def match5Tail (cs : Chars) : Option ℚ :=
  match cs with
  | c :: _ =>
    if reSpace c then
      match numTok (cs.dropWhile reSpace) with
      | none => none
      | some (_, r1) =>
        let r2 := r1.dropWhile reSpace
        if ciAtFront "oz".data r2 then match5Slash (r2.drop 2)
        else if ciAtFront "ounces".data r2 then match5Slash (r2.drop 6)
        else none
    else none
  | [] => none

/-- Lazy growth of pattern 5's label `([^\(]+?)`: the shortest non-empty
parenthesis-free label after which the tail matches. -/
def match5Scan (acc : Chars) : Chars → Option (Chars × ℚ)
  | [] => none
  | c :: rest =>
    if c = '(' then none
    else
      match match5Tail rest with
      | some g => some (acc ++ [c], g)
      | none => match5Scan (acc ++ [c]) rest

/-- Pattern 5 (main.go:794), case-insensitive:
`^(?:(\d*\.?\d+)\s+([^\(]+?))\s+(\d*\.?\d+)\s*(oz|ounces)\s*/\s*(\d*\.?\d+)\s*(g|gr|grm|gram)$`.
The gram figure is trusted verbatim and the ounce figure discarded. -/
def match5 (cs : Chars) : Option (ℚ × Chars × ℚ) :=
  match numTok cs with
  | none => none
  | some (t, r) =>
    match r with
    | c :: _ =>
      if reSpace c then
        match match5Scan [] (r.dropWhile reSpace) with
        | none => none
        | some (lbl, g) => some (tokVal t, lbl, g)
      else none
    | [] => none

/-- The inner group of pattern 6, after its opening parenthesis:
`\s*(\d*\.?\d+)?\s*([^\)]+)\s*\)$` — the closing parenthesis must be the
first one and the last character.  When taking the optional number leaves
nothing for the mandatory label, backtracking drops the number into the
label (e.g. a bare parenthesized number). -/
def innerParse6 (body : Chars) : Option (Option ℚ × Chars) :=
  let A := body.takeWhile (fun c => c ≠ ')')
  match body.drop A.length with
  | [')'] =>
    if A = [] then none
    else
      match numTok (A.dropWhile reSpace) with
      | some (t, A2) =>
        if A2 ≠ [] then some (some (tokVal t), A2) else some (none, A)
      | none => some (none, A)
  | _ => none

/-- Front alternation of pattern 6 with its full continuation
(`\s*\(` and the inner group); on an inner failure the next alternative is
tried, mirroring regexp backtracking. -/
def match6Alts (alts : List Chars) (cs : Chars) : Option (Chars × Option ℚ × Chars) :=
  match alts with
  | [] => none
  | a :: rest =>
    if ciAtFront a cs then
      match
        (match (cs.drop a.length).dropWhile reSpace with
         | '(' :: body => innerParse6 body
         | _ => none) with
      | some (q, lbl) => some (cs.take a.length, q, lbl)
      | none => match6Alts rest cs
    else match6Alts rest cs

/-- Pattern 6 (main.go:825), case-insensitive:
`^(?:(\d*\.?\d+)\s*(g|gr|grm|gram|ml|l|oz|fl oz))\s*\(\s*(\d*\.?\d+)?\s*([^\)]+)\s*\)$`
— weight first, quantity and descriptive label in parentheses. -/
def match6 (cs : Chars) : Option (ℚ × Chars × Option ℚ × Chars) :=
  match numTok cs with
  | none => none
  | some (t, r) =>
    match match6Alts ["g".data, "gr".data, "grm".data, "gram".data, "ml".data,
        "l".data, "oz".data, "fl oz".data] (r.dropWhile reSpace) with
    | none => none
    | some (u, q, lbl) => some (tokVal t, u, q, lbl)

/-- The gram-only parenthetical `\(\s*(\d*\.?\d+)\s*(?:g|gr|grm|gram)\s*\)$`
of patterns 7/8: the verbatim gram value. -/
def parseGramParen (post : Chars) : Option ℚ :=
  match post with
  | '(' :: r =>
    match numTok (r.dropWhile reSpace) with
    | none => none
    | some (t, r2) =>
      match altThenClose ["g".data, "gr".data, "grm".data, "gram".data]
          (r2.dropWhile reSpace) with
      | none => none
      | some _ => some (tokVal t)
  | _ => none

/-- The mandatory-quantity head of pattern 7 with its GREEDY label
`([^\(]+)` (which runs to the first parenthesis, trailing spaces
included). -/
def qtyLabelGreedy (pre : Chars) : Option (ℚ × Chars) :=
  match numTok pre with
  | some (t, r) =>
    match r with
    | c :: _ =>
      if reSpace c then
        let r1 := r.dropWhile reSpace
        if r1 ≠ [] then some (tokVal t, r1)
        else if 2 ≤ r.length then some (tokVal t, [' '])
        else none
      else none
    | [] => none
  | none => none

/-- Pattern 7 (main.go:871), case-insensitive:
`^(?:(\d*\.?\d+)\s+([^\(]+))\s*\(\s*(\d*\.?\d+)\s*(?:g|gr|grm|gram)\s*\)$`. -/
def match7 (cs : Chars) : Option (ℚ × Chars × ℚ) :=
  let pre := cs.takeWhile (fun c => c ≠ '(')
  match qtyLabelGreedy pre with
  | none => none
  | some (q, lbl) =>
    match parseGramParen (cs.drop pre.length) with
    | none => none
    | some w => some (q, lbl, w)

/-- Front alternation of pattern 8 with its continuation (`\s*` and the
gram-only parenthetical). -/
def match8Alts (alts : List Chars) (cs : Chars) : Option (Chars × ℚ) :=
  match alts with
  | [] => none
  | a :: rest =>
    if ciAtFront a cs then
      match parseGramParen ((cs.drop a.length).dropWhile reSpace) with
      | some w => some (cs.take a.length, w)
      | none => match8Alts rest cs
    else match8Alts rest cs

/-- Pattern 8 (main.go:908), case-insensitive:
`^(?:(\d*\.?\d+)\s*(g|gr|grm|gram|ml|oz|fl oz))\s*\(\s*(\d*\.?\d+)\s*(?:g|gr|grm|gram)\s*\)$`. -/
def match8 (cs : Chars) : Option (ℚ × Chars × ℚ) :=
  match numTok cs with
  | none => none
  | some (t, r) =>
    match match8Alts ["g".data, "gr".data, "grm".data, "gram".data, "ml".data,
        "oz".data, "fl oz".data] (r.dropWhile reSpace) with
    | none => none
    | some (u, w) => some (tokVal t, u, w)

/-- Pattern 9 (main.go:945), case-insensitive:
`^([^\s]+)\s+(\d*\.?\d+)\s*(g|gr|grm|gram|ml|oz|fl oz)$`. -/
def match9 (cs : Chars) : Option (Chars × ℚ × Chars) :=
  let token := cs.takeWhile (fun c => ¬ reSpace c)
  if token = [] then none
  else
    match cs.drop token.length with
    | c :: _ =>
      if reSpace c then
        match numTok ((cs.drop token.length).dropWhile reSpace) with
        | none => none
        | some (t, r2) =>
          match altThenEnd ["g".data, "gr".data, "grm".data, "gram".data,
              "ml".data, "oz".data, "fl oz".data] (r2.dropWhile reSpace) with
          | none => none
          | some u => some (token, tokVal t, u)
      else none
    | [] => none

/-- Pattern 10 (main.go:973), case-insensitive:
`^(\d*\.?\d+)\s*(g|gr|grm|gram|ml|oz|fl oz)$`. -/
def match10 (cs : Chars) : Option (ℚ × Chars) :=
  match numTok cs with
  | none => none
  | some (t, r) =>
    match altThenEnd ["g".data, "gr".data, "grm".data, "gram".data, "ml".data,
        "oz".data, "fl oz".data] (r.dropWhile reSpace) with
    | none => none
    | some u => some (tokVal t, u)

/-- A parse result: (quantity, measurementUnit, weightInGrams, servingType). -/
abbrev ParseResult := ℚ × String × ℚ × ℕ

/-- Default handling (main.go:1000): the whole cleaned string becomes the
unit label, quantity 1, weight 0, type 3. -/
def parseDefault (cs : Chars) : ParseResult :=
  (1, String.mk cs, 0, 3)

/-- Branch of pattern 10 (main.go:973-998). -/
def parseStage10 (cs : Chars) : ParseResult :=
  match match10 cs with
  | some (q, u) =>
    let mu := String.mk (goTrimSpace u)
    (q, mu, q, unitClass (goToLower mu))
  | none => parseDefault cs

/-- Branch of pattern 9 (main.go:945-970): the weight is computed from the
quantity and the trailing weight unit. -/
def parseStage9 (cs : Chars) : ParseResult :=
  match match9 cs with
  | some (token, q, wu) =>
    let mu := String.mk (goTrimSpace token)
    (q, mu, convertToGrams q (String.mk wu), unitClass (goToLower mu))
  | none => parseStage10 cs

/-- Branch of pattern 8 (main.go:908-942): the parenthetical gram figure is
used verbatim. -/
def parseStage8 (cs : Chars) : ParseResult :=
  match match8 cs with
  | some (q, u, w) =>
    let mu := String.mk (goTrimSpace u)
    (q, mu, w, unitClass (goToLower mu))
  | none => parseStage9 cs

/-- Branch of pattern 7 (main.go:871-905): the parenthetical gram figure is
used verbatim. -/
def parseStage7 (cs : Chars) : ParseResult :=
  match match7 cs with
  | some (q, lbl, w) =>
    let mu := String.mk (goTrimSpace lbl)
    (q, mu, w, unitClass (goToLower mu))
  | none => parseStage8 cs

/-- Branch of pattern 6 (main.go:825-868): weight first (converted to
grams from its matched unit, lower-cased as in the source), quantity and
label from the parentheses. -/
def parseStage6 (cs : Chars) : ParseResult :=
  match match6 cs with
  | some (wv, wu, qOpt, lbl) =>
    let w := convertToGrams wv (goToLower (String.mk wu))
    let q := qOpt.getD 1
    let mu := String.mk (goTrimSpace lbl)
    (q, mu, w, unitClass (goToLower mu))
  | none => parseStage7 cs

/-- Branch of pattern 5 (main.go:794-822): the gram figure of the
slash-separated dual disclosure is trusted verbatim; the type is the
non-standard 3. -/
def parseStage5 (cs : Chars) : ParseResult :=
  match match5 cs with
  | some (q, lbl, g) => (q, String.mk (goTrimSpace lbl), g, 3)
  | none => parseStage6 cs

/-- Branch of pattern 4 (main.go:754-791). -/
def parseStage4 (cs : Chars) : ParseResult :=
  match match4 cs with
  | some (q, lbl, wv, wu) =>
    let mu := String.mk (goTrimSpace lbl)
    (q, mu, convertToGrams wv (goToLower (String.mk wu)), unitClass (goToLower mu))
  | none => parseStage5 cs

/-- Branch of pattern 3 (main.go:708-751): parenthetical weight when
present, otherwise an estimate from the unit. -/
def parseStage3 (cs : Chars) : ParseResult :=
  match match3 cs with
  | some (q, lbl, wOpt) =>
    let mu := String.mk (goTrimSpace lbl)
    let w0 : ℚ :=
      match wOpt with
      | some (wv, wu) => convertToGrams wv (goToLower (String.mk wu))
      | none => 0
    let w1 := if w0 = 0 then estimateWeightFromUnit q mu else w0
    (q, mu, w1, unitClass (goToLower mu))
  | none => parseStage4 cs

/-- Branch of pattern 2 (main.go:652-705): optional quantity, free label
(trimmed, then a trailing " e" removed), optional parenthetical weight,
then the two zero-weight fallbacks: a weight expression embedded in the
label, then the unit-ratio estimate. -/
def parseStage2 (cs : Chars) : ParseResult :=
  match match2 cs with
  | some (qOpt, lbl, wOpt) =>
    let quantity := qOpt.getD 1
    let mu := String.mk (goTrimSuffix " e".data (goTrimSpace lbl))
    let w0 : ℚ :=
      match wOpt with
      | some (wv, wu) => convertToGrams wv (goToLower (String.mk wu))
      | none => 0
    let w1 := if w0 = 0 then extractWeightFromMeasurementUnit mu else w0
    let w2 := if w1 = 0 then estimateWeightFromUnit quantity mu else w1
    (quantity, mu, w2, unitClass (goToLower mu))
  | none => parseStage3 cs

/-- Pattern 1 (main.go:626-649): a bare number with a known weight/volume
unit collapses to "1 Serving" of that weight when the conversion leaves
the number unchanged (the source's second disjunct `unitStr == "ml" && ...`
is subsumed by the first); otherwise the cascade continues.  The
`ParseFloat` fallback inside this branch is unreachable (the capture
always parses). -/
def parseStage1 (cs : Chars) : ParseResult :=
  match match1 cs with
  | some (v, u) =>
    let w := convertToGrams v (String.mk u)
    if w = v then (1, "Serving", w, 3) else parseStage2 cs
  | none => parseStage2 cs

/-- `parseServingSize` (main.go:592): clean, then try the patterns in
source order, first match wins. -/
def parseServingSize (servingSizeStr : String) : ParseResult :=
  parseStage1 (cleanServing servingSizeStr.data)

/-- `toTitle` (main.go:1132): upper-case the first byte, lower-case the
rest.  Only called on ASCII strings of length > 1, where bytes and
characters coincide; total here, with the empty string mapped to itself. -/
def toTitle (s : String) : String :=
  match s.data with
  | [] => ""
  | c :: rest => String.mk (c.toUpper :: rest.map Char.toLower)

/-- `isAsciiOnly` (main.go:1136): no character above `unicode.MaxASCII`. -/
def isAsciiOnly (s : String) : Bool :=
  s.data.all (fun c => c.toNat ≤ 127)

/-- `extractBrand` (main.go:1124): first comma-separated token of the
trimmed brand string, trimmed again.  (Go `strings.Split` never returns an
empty slice, so the `len == 0` branch of the source is unreachable.) -/
def extractBrand (brands : String) : String :=
  match goSplitChar ',' (goTrimSpace brands.data) with
  | [] => brands
  | p :: _ => String.mk (goTrimSpace p)

/-- `OpenFoodFactsProduct` (main.go:17): the decoded raw record. -/
structure OpenFoodFactsProduct where
  ID : String := ""
  Code : String := ""
  ProductName : String := ""
  ProductNameEn : String := ""
  ProductNameFr : String := ""
  ProductNameEs : String := ""
  ProductNameDe : String := ""
  ProductNameIt : String := ""
  ProductNameNl : String := ""
  ProductNamePl : String := ""
  ProductNamePt : String := ""
  ProductNameUk : String := ""
  ProductNameBg : String := ""
  ProductNameRo : String := ""
  ProductNameEl : String := ""
  ProductNameRu : String := ""
  ProductNameTr : String := ""
  ProductNameAr : String := ""
  ProductNameHi : String := ""
  Lang : String := ""
  Brands : String := ""
  ServingSize : String := ""
  Nutriments : Nutriments := []
  Allergens : String := ""
  AllergensTags : List String := []
  IngredientsTags : List String := []
deriving DecidableEq

/-- `ServingSize` (main.go:57): one nutrition block.  All numeric fields
default to Go's zero value.  The Go field `Type` is called `ServingType`
here, `Type` being reserved in Lean. -/
structure ServingSize where
  MeasurementUnit : String := ""
  ServingType : ℕ := 0
  Quantity : ℚ := 0
  WeightInGrams : ℚ := 0
  Calories : ℚ := 0
  Protein : ℚ := 0
  Fat : ℚ := 0
  Carbs : ℚ := 0
  Fiber : ℚ := 0
  Sugar : ℚ := 0
  Sodium : ℚ := 0
  Cholesterol : ℚ := 0
  Calcium : ℚ := 0
  Iron : ℚ := 0
  Potassium : ℚ := 0
  Magnesium : ℚ := 0
  Zinc : ℚ := 0
  VitaminAIU : ℚ := 0
  VitaminC : ℚ := 0
  VitaminD : ℚ := 0
  VitaminDIU : ℚ := 0
  VitaminE : ℚ := 0
  VitaminK : ℚ := 0
  Thiamin : ℚ := 0
  Riboflavin : ℚ := 0
  Niacin : ℚ := 0
  VitaminB6 : ℚ := 0
  Folate : ℚ := 0
  VitaminB12 : ℚ := 0
  Phosphorus : ℚ := 0
  Copper : ℚ := 0
  Manganese : ℚ := 0
  Selenium : ℚ := 0
  Water : ℚ := 0
  Ash : ℚ := 0
  SaturatedFat : ℚ := 0
  MonounsaturatedFat : ℚ := 0
  PolyunsaturatedFat : ℚ := 0
  TransFat : ℚ := 0
deriving DecidableEq

/-- `FoodItem` (main.go:46): the normalized record.  The Go
`map[string]string` of translations is modelled as an association list in
the source's insertion order. -/
structure FoodItem where
  Name : String
  OffID : String
  Brand : String
  Barcode : String
  ServingSizes : List ServingSize
  Allergens : List String
  IngredientAllergens : List String
  Translations : List (String × String)
deriving DecidableEq

/-- The per-100g block before the calorie back-fill (main.go:404-447): the
35 nutrient extractions against the `_100g` keys, each starting from the
zero-valued field. -/
def per100gExtracted (nutriments : Nutriments) : ServingSize where
  MeasurementUnit := "g"
  ServingType := 1
  Quantity := 100
  WeightInGrams := 100
  Calories := mapNutrient 0 nutriments "" ["energy-kcal_100g"]
  Protein := mapNutrient 0 nutriments "" ["proteins_100g"]
  Fat := mapNutrient 0 nutriments "" ["fat_100g"]
  Carbs := mapNutrient 0 nutriments "" ["carbohydrates_100g"]
  Fiber := mapNutrient 0 nutriments "" ["fiber_100g"]
  Sugar := mapNutrient 0 nutriments "" ["sugars_100g"]
  Sodium := mapNutrient 0 nutriments "g_to_mg" ["sodium_100g"]
  Cholesterol := mapNutrient 0 nutriments "g_to_mg" ["cholesterol_100g"]
  Calcium := mapNutrient 0 nutriments "g_to_mg" ["calcium_100g"]
  Iron := mapNutrient 0 nutriments "g_to_mg" ["iron_100g"]
  Potassium := mapNutrient 0 nutriments "g_to_mg" ["potassium_100g"]
  Magnesium := mapNutrient 0 nutriments "g_to_mg" ["magnesium_100g"]
  Zinc := mapNutrient 0 nutriments "g_to_mg" ["zinc_100g"]
  VitaminAIU := mapNutrient 0 nutriments "" ["vitamin-a_iu_100g"]
  VitaminC := mapNutrient 0 nutriments "g_to_mg" ["vitamin-c_100g"]
  VitaminD := mapNutrient 0 nutriments "g_to_ug" ["vitamin-d_100g"]
  VitaminDIU := mapNutrient 0 nutriments "" ["vitamin-d_iu_100g"]
  VitaminE := mapNutrient 0 nutriments "g_to_mg" ["vitamin-e_100g"]
  VitaminK := mapNutrient 0 nutriments "g_to_ug" ["vitamin-k_100g"]
  Thiamin := mapNutrient 0 nutriments "g_to_mg" ["thiamin_100g"]
  Riboflavin := mapNutrient 0 nutriments "g_to_mg" ["riboflavin_100g"]
  Niacin := mapNutrient 0 nutriments "g_to_mg" ["niacin_100g"]
  VitaminB6 := mapNutrient 0 nutriments "g_to_mg" ["vitamin-b6_100g"]
  Folate := mapNutrient 0 nutriments "g_to_ug" ["folate_100g"]
  VitaminB12 := mapNutrient 0 nutriments "g_to_ug" ["vitamin-b12_100g"]
  Phosphorus := mapNutrient 0 nutriments "g_to_mg" ["phosphorus_100g"]
  Copper := mapNutrient 0 nutriments "g_to_mg" ["copper_100g"]
  Manganese := mapNutrient 0 nutriments "g_to_mg" ["manganese_100g"]
  Selenium := mapNutrient 0 nutriments "g_to_ug" ["selenium_100g"]
  Water := mapNutrient 0 nutriments "" ["water_100g"]
  Ash := mapNutrient 0 nutriments "" ["ash_100g"]
  SaturatedFat := mapNutrient 0 nutriments "" ["saturated-fat_100g"]
  MonounsaturatedFat := mapNutrient 0 nutriments "" ["monounsaturated-fat_100g"]
  PolyunsaturatedFat := mapNutrient 0 nutriments "" ["polyunsaturated-fat_100g"]
  TransFat := mapNutrient 0 nutriments "" ["trans-fat_100g"]

/-- The Atwater calorie back-fill applied to a built block
(main.go:449-451 and 512-514): when the extracted calorie value is exactly
0, replace it by protein*4 + fat*9 + carbs*4. -/
def backfillCalories (ss : ServingSize) : ServingSize :=
  if ss.Calories = 0 then
    { ss with Calories := ss.Protein * 4 + ss.Fat * 9 + ss.Carbs * 4 }
  else ss

/-- The per-100g block as appended (main.go:521): extraction plus
back-fill. -/
def per100gServing (nutriments : Nutriments) : ServingSize :=
  backfillCalories (per100gExtracted nutriments)

/-- The natural-serving block before the calorie back-fill
(main.go:469-510): the given display unit, type, quantity and weight, and
the 35 nutrient extractions against the `_serving` keys. -/
def naturalBlockExtracted (mu : String) (ty : ℕ) (q w : ℚ)
    (nutriments : Nutriments) : ServingSize where
  MeasurementUnit := mu
  ServingType := ty
  Quantity := q
  WeightInGrams := w
  Calories := mapNutrient 0 nutriments "" ["energy-kcal_serving"]
  Protein := mapNutrient 0 nutriments "" ["proteins_serving"]
  Fat := mapNutrient 0 nutriments "" ["fat_serving"]
  Carbs := mapNutrient 0 nutriments "" ["carbohydrates_serving"]
  Fiber := mapNutrient 0 nutriments "" ["fiber_serving"]
  Sugar := mapNutrient 0 nutriments "" ["sugars_serving"]
  Sodium := mapNutrient 0 nutriments "g_to_mg" ["sodium_serving"]
  Cholesterol := mapNutrient 0 nutriments "g_to_mg" ["cholesterol_serving"]
  Calcium := mapNutrient 0 nutriments "g_to_mg" ["calcium_serving"]
  Iron := mapNutrient 0 nutriments "g_to_mg" ["iron_serving"]
  Potassium := mapNutrient 0 nutriments "g_to_mg" ["potassium_serving"]
  Magnesium := mapNutrient 0 nutriments "g_to_mg" ["magnesium_serving"]
  Zinc := mapNutrient 0 nutriments "g_to_mg" ["zinc_serving"]
  VitaminAIU := mapNutrient 0 nutriments "" ["vitamin-a_iu_serving"]
  VitaminC := mapNutrient 0 nutriments "g_to_mg" ["vitamin-c_serving"]
  VitaminD := mapNutrient 0 nutriments "g_to_ug" ["vitamin-d_serving"]
  VitaminDIU := mapNutrient 0 nutriments "" ["vitamin-d_iu_serving"]
  VitaminE := mapNutrient 0 nutriments "g_to_mg" ["vitamin-e_serving"]
  VitaminK := mapNutrient 0 nutriments "g_to_ug" ["vitamin-k_serving"]
  Thiamin := mapNutrient 0 nutriments "g_to_mg" ["thiamin_serving"]
  Riboflavin := mapNutrient 0 nutriments "g_to_mg" ["riboflavin_serving"]
  Niacin := mapNutrient 0 nutriments "g_to_mg" ["niacin_serving"]
  VitaminB6 := mapNutrient 0 nutriments "g_to_mg" ["vitamin-b6_serving"]
  Folate := mapNutrient 0 nutriments "g_to_ug" ["folate_serving"]
  VitaminB12 := mapNutrient 0 nutriments "g_to_ug" ["vitamin-b12_serving"]
  Phosphorus := mapNutrient 0 nutriments "g_to_mg" ["phosphorus_serving"]
  Copper := mapNutrient 0 nutriments "g_to_mg" ["copper_serving"]
  Manganese := mapNutrient 0 nutriments "g_to_mg" ["manganese_serving"]
  Selenium := mapNutrient 0 nutriments "g_to_ug" ["selenium_serving"]
  Water := mapNutrient 0 nutriments "" ["water_serving"]
  Ash := mapNutrient 0 nutriments "" ["ash_serving"]
  SaturatedFat := mapNutrient 0 nutriments "" ["saturated-fat_serving"]
  MonounsaturatedFat := mapNutrient 0 nutriments "" ["monounsaturated-fat_serving"]
  PolyunsaturatedFat := mapNutrient 0 nutriments "" ["polyunsaturated-fat_serving"]
  TransFat := mapNutrient 0 nutriments "" ["trans-fat_serving"]

/-- The weight used for the natural-serving block (main.go:458-460): when
the parsed weight is 0 and the quantity positive, re-derive it from the
unit via the conversion table. -/
def resolvedWeight (quantity : ℚ) (measurementUnit : String) (weightInGrams : ℚ) : ℚ :=
  if weightInGrams = 0 ∧ 0 < quantity then convertToGrams quantity measurementUnit
  else weightInGrams

/-- The skip test of main.go:462-463: the lower-cased unit is empty or a
100-gram label. -/
def skip100Label (measurementUnit : String) : Bool :=
  goToLower measurementUnit == "" || goToLower measurementUnit == "100g" ||
  goToLower measurementUnit == "100 g" || goToLower measurementUnit == "100grams" ||
  goToLower measurementUnit == "100 grams"

/-- The display casing of main.go:465-467: labels longer than one
character consisting only of ASCII are title-cased.  (Go measures the
length in bytes, which coincides with characters for ASCII labels; a
non-ASCII label fails the ASCII test and is left alone either way.) -/
def displayUnit (measurementUnit : String) : String :=
  if 1 < measurementUnit.data.length ∧ isAsciiOnly measurementUnit then
    toTitle measurementUnit
  else measurementUnit

/-- The natural-serving construction (main.go:454-519) before the calorie
back-fill, from a parse result: skip when the unit is a 100-gram label,
the quantity is not positive, or the resolved weight is exactly 100;
otherwise build the block under the display-cased unit. -/
def naturalFromParse (pr : ParseResult) (nutriments : Nutriments) :
    Option ServingSize :=
  if skip100Label pr.2.1 = false ∧ 0 < pr.1 ∧
      resolvedWeight pr.1 pr.2.1 pr.2.2.1 ≠ 100 then
    some (naturalBlockExtracted (displayUnit pr.2.1) pr.2.2.2 pr.1
      (resolvedWeight pr.1 pr.2.1 pr.2.2.1) nutriments)
  else none

/-- The natural-serving block before the calorie back-fill: only attempted
when the free-text description is non-empty (main.go:454). -/
def naturalExtracted (servingSizeStr : String) (nutriments : Nutriments) :
    Option ServingSize :=
  if servingSizeStr = "" then none
  else naturalFromParse (parseServingSize servingSizeStr) nutriments

/-- The natural-serving block as appended (main.go:516): extraction plus
calorie back-fill. -/
def naturalServing (servingSizeStr : String) (nutriments : Nutriments) :
    Option ServingSize :=
  (naturalExtracted servingSizeStr nutriments).map backfillCalories

/-- The rejection reason of main.go:301 (`EmptyKeyFields`). -/
def EmptyKeyFields : String := "product ID or code is empty"

/-- The rejection reason of main.go:381 (`EmptyNameAndBarcode`). -/
def EmptyNameAndBarcode : String := "product name and barcode are empty"

/-- The per-language translations collected from the name fields
(main.go:304-352), in source insertion order. -/
def buildTranslations (p : OpenFoodFactsProduct) : List (String × String) :=
  (if p.ProductNameEn ≠ "" then [("en", p.ProductNameEn)] else []) ++
  (if p.ProductNameFr ≠ "" then [("fr", p.ProductNameFr)] else []) ++
  (if p.ProductNameEs ≠ "" then [("es", p.ProductNameEs)] else []) ++
  (if p.ProductNameDe ≠ "" then [("de", p.ProductNameDe)] else []) ++
  (if p.ProductNameIt ≠ "" then [("it", p.ProductNameIt)] else []) ++
  (if p.ProductNameNl ≠ "" then [("nl", p.ProductNameNl)] else []) ++
  (if p.ProductNamePl ≠ "" then [("pl", p.ProductNamePl)] else []) ++
  (if p.ProductNamePt ≠ "" then [("pt", p.ProductNamePt)] else []) ++
  (if p.ProductNameUk ≠ "" then [("uk", p.ProductNameUk)] else []) ++
  (if p.ProductNameBg ≠ "" then [("bg", p.ProductNameBg)] else []) ++
  (if p.ProductNameRo ≠ "" then [("ro", p.ProductNameRo)] else []) ++
  (if p.ProductNameEl ≠ "" then [("el", p.ProductNameEl)] else []) ++
  (if p.ProductNameRu ≠ "" then [("ru", p.ProductNameRu)] else []) ++
  (if p.ProductNameTr ≠ "" then [("tr", p.ProductNameTr)] else []) ++
  (if p.ProductNameAr ≠ "" then [("ar", p.ProductNameAr)] else []) ++
  (if p.ProductNameHi ≠ "" then [("hi", p.ProductNameHi)] else [])

/-- The name after main.go:354-357: the English translation, else the raw
default name (a missing map key reads as the empty string in Go). -/
def nameEnOrDefault (p : OpenFoodFactsProduct) : String :=
  let n := ((buildTranslations p).lookup "en").getD ""
  if n = "" then p.ProductName else n

/-- The translations after the conditional registration of main.go:359-362:
when the default name is present, no per-language field was set, and a
language is declared, the single name is registered under the lower-cased
declared language. -/
def finalTranslations (p : OpenFoodFactsProduct) : List (String × String) :=
  if p.ProductName ≠ "" ∧ buildTranslations p = [] ∧ p.Lang ≠ "" then
    [(goToLower p.Lang, nameEnOrDefault p)]
  else buildTranslations p

/-- The display name after the fallbacks of main.go:364-374: the declared
language's translation, then some available translation.  Go ranges over
the map in unspecified order; the first entry of the insertion-ordered
list models that arbitrary pick (the claims under scrutiny never depend on
which entry is taken). -/
def resolveDisplayName (p : OpenFoodFactsProduct) : String :=
  let n1 := nameEnOrDefault p
  let t2 := finalTranslations p
  let n2 := if n1 = "" ∧ t2 ≠ [] ∧ p.Lang ≠ "" then
              (t2.lookup (goToLower p.Lang)).getD ""
            else n1
  if n2 = "" ∧ t2 ≠ [] then ((t2.head?).map Prod.snd).getD "" else n2

/-- The source list the allergens are normalized from (main.go:384-387):
the pre-tagged list, or the comma-split raw string when the list is empty
and the string is not. -/
def allergenSource (p : OpenFoodFactsProduct) : List String :=
  if p.AllergensTags = [] ∧ p.Allergens ≠ "" then
    (goSplitChar ',' p.Allergens.data).map String.mk
  else p.AllergensTags

/-- `ProcessProduct` (main.go:299): reject on empty key fields, resolve
the display name, reject when no name resolves and the barcode is empty,
then assemble the normalized item; the serving sizes are the optional
natural block followed by the mandatory per-100g block. -/
def ProcessProduct (p : OpenFoodFactsProduct) : Except String FoodItem :=
  if p.ID = "" ∨ p.Code = "" then Except.error EmptyKeyFields
  else if resolveDisplayName p = "" ∧ p.Code = "" then
    Except.error EmptyNameAndBarcode
  else
    Except.ok
      { Name := resolveDisplayName p
        OffID := p.ID
        Brand := extractBrand p.Brands
        Barcode := p.Code
        ServingSizes :=
          (naturalServing p.ServingSize p.Nutriments).toList ++
            [per100gServing p.Nutriments]
        Allergens := (allergenSource p).map normalizeAllergen
        IngredientAllergens :=
          (p.IngredientsTags.map extractIngredientAllergen).filter (· ≠ "")
        Translations := finalTranslations p }

/-- The contents of the caller's `AllergensTags` slice AFTER
`ProcessProduct` returns.  Go slices share their backing array: the
normalization loop of main.go:388-390 writes through the array of
`product.AllergensTags` whenever that slice is non-empty (when it is empty
the loop runs over a freshly allocated slice from `strings.Split`, or over
nothing). -/
def allergensTagsAfter (p : OpenFoodFactsProduct) : List String :=
  if p.AllergensTags = [] then p.AllergensTags
  else p.AllergensTags.map normalizeAllergen

deriving instance DecidableEq for Except

/-- The per-100g reference shape: quantity 100, unit "g", weight 100. -/
def isPer100gBlock (ss : ServingSize) : Bool :=
  ss.Quantity == 100 && ss.MeasurementUnit == "g" && ss.WeightInGrams == 100

instance : DecidableEq (Option ℚ × Chars × Option (ℚ × Chars)) := inferInstance

instance : DecidableEq (ℚ × Chars × Option (ℚ × Chars)) := inferInstance

instance : DecidableEq (ℚ × Chars × Option ℚ × Chars) := inferInstance

/-- No structural pattern of the cascade matches the cleaned string. -/
def noPatternMatches (cs : Chars) : Prop :=
  match1 cs = none ∧ match2 cs = none ∧ match3 cs = none ∧ match4 cs = none ∧
  match5 cs = none ∧ match6 cs = none ∧ match7 cs = none ∧ match8 cs = none ∧
  match9 cs = none ∧ match10 cs = none

instance noPatternMatchesDec (cs : Chars) : Decidable (noPatternMatches cs) := by
  unfold noPatternMatches
  exact inferInstance

/-- A concrete accepted raw record. -/
def exProduct : OpenFoodFactsProduct :=
  { ID := "123", Code := "456", ProductNameEn := "Oat Bar" }

/-- The item `exProduct` normalizes to. -/
def exItem : FoodItem :=
  { Name := "Oat Bar", OffID := "123", Brand := "", Barcode := "456",
    ServingSizes := [per100gServing []], Allergens := [],
    IngredientAllergens := [], Translations := [("en", "Oat Bar")] }

/-- A record with a non-empty identifier, an empty code (hence an empty
barcode) and no resolvable name. -/
def noNameEmptyCodeProduct : OpenFoodFactsProduct := { ID := "3017620422003" }

/-- The natural block that "2 SLICES (57 g)" produces (before back-fill),
over an empty nutrient map. -/
def twoSlicesBlock : ServingSize := naturalBlockExtracted "Slices" 3 2 57 []

/-- An accepted record carrying a pre-tagged allergen list. -/
def milkTagProduct : OpenFoodFactsProduct :=
  { ID := "p1", Code := "c1", ProductNameEn := "Milk Drink",
    AllergensTags := ["en:milk"] }

/-- The natural block carries the unit, type, quantity and weight it was
built from. -/
theorem naturalBlockExtracted_fields (mu : String) (ty : ℕ) (q w : ℚ)
    (n : Nutriments) :
    (naturalBlockExtracted mu ty q w n).MeasurementUnit = mu ∧
    (naturalBlockExtracted mu ty q w n).ServingType = ty ∧
    (naturalBlockExtracted mu ty q w n).Quantity = q ∧
    (naturalBlockExtracted mu ty q w n).WeightInGrams = w :=
  ⟨rfl, rfl, rfl, rfl⟩

/-- The calorie back-fill changes no field other than `Calories`. -/
theorem backfillCalories_keeps (ss : ServingSize) :
    (backfillCalories ss).MeasurementUnit = ss.MeasurementUnit ∧
    (backfillCalories ss).ServingType = ss.ServingType ∧
    (backfillCalories ss).Quantity = ss.Quantity ∧
    (backfillCalories ss).WeightInGrams = ss.WeightInGrams ∧
    (backfillCalories ss).Protein = ss.Protein ∧
    (backfillCalories ss).Fat = ss.Fat ∧
    (backfillCalories ss).Carbs = ss.Carbs := by
  unfold backfillCalories
  split <;> exact ⟨rfl, rfl, rfl, rfl, rfl, rfl, rfl⟩

/-- A kept natural-serving block never weighs exactly 100 grams: the guard
of main.go:464 requires it. -/
theorem naturalExtracted_weight_ne (s : String) (n : Nutriments)
    (ss : ServingSize) (h : naturalExtracted s n = some ss) :
    ss.WeightInGrams ≠ 100 := by
  unfold naturalExtracted at h
  split at h
  · exact Option.noConfusion h
  · unfold naturalFromParse at h
    split at h
    · next hg =>
      injection h with h2
      rw [← h2, (naturalBlockExtracted_fields _ _ _ _ _).2.2.2]
      exact hg.2.2
    · exact Option.noConfusion h

/-- A kept (back-filled) natural-serving block never weighs exactly 100
grams. -/
theorem naturalServing_weight_ne (s : String) (n : Nutriments)
    (ss : ServingSize) (h : naturalServing s n = some ss) :
    ss.WeightInGrams ≠ 100 := by
  unfold naturalServing at h
  cases he : naturalExtracted s n with
  | none => rw [he] at h; exact Option.noConfusion h
  | some ss0 =>
    rw [he] at h
    injection h with h2
    rw [← h2, (backfillCalories_keeps ss0).2.2.2.1]
    exact naturalExtracted_weight_ne s n ss0 he

/-- The per-100g block has the reference shape. -/
theorem per100gServing_isBlock (n : Nutriments) :
    isPer100gBlock (per100gServing n) = true := by
  unfold isPer100gBlock per100gServing
  rw [(backfillCalories_keeps (per100gExtracted n)).1,
      (backfillCalories_keeps (per100gExtracted n)).2.2.1,
      (backfillCalories_keeps (per100gExtracted n)).2.2.2.1]
  rfl

/-- A kept natural-serving block does not have the reference shape. -/
theorem naturalServing_not_block (s : String) (n : Nutriments)
    (ss : ServingSize) (h : naturalServing s n = some ss) :
    isPer100gBlock ss = false := by
  unfold isPer100gBlock
  have hw : (ss.WeightInGrams == 100) = false :=
    beq_eq_false_iff_ne.mpr (naturalServing_weight_ne s n ss h)
  simp [hw]

/-- The last element of a list extended by a singleton. -/
theorem getLast?_append_singleton {α : Type} (l : List α) (a : α) :
    (l ++ [a]).getLast? = some a := by
  induction l with
  | nil => rfl
  | cons b l ih =>
    cases l with
    | nil => rfl
    | cons c l2 => exact ih

/-- The serving-size list an accepted record carries. -/
theorem processProduct_servingSizes (p : OpenFoodFactsProduct) (item : FoodItem)
    (h : ProcessProduct p = Except.ok item) :
    item.ServingSizes =
      (naturalServing p.ServingSize p.Nutriments).toList ++
        [per100gServing p.Nutriments] := by
  unfold ProcessProduct at h
  split at h
  · exact Except.noConfusion h
  · split at h
    · exact Except.noConfusion h
    · injection h with h2
      rw [← h2]

/-- C1: every accepted record's ServingSizes list is the optional natural
block followed by the per-100g block: it contains exactly one entry with
quantity 100, unit "g" and weight 100; that entry is the last element; and
the natural block, when kept, is the only other element, precedes it, and
does not have the reference shape. -/
theorem processProduct_per100g_invariant (p : OpenFoodFactsProduct)
    (item : FoodItem) (h : ProcessProduct p = Except.ok item) :
    item.ServingSizes =
      (naturalServing p.ServingSize p.Nutriments).toList ++
        [per100gServing p.Nutriments] ∧
    isPer100gBlock (per100gServing p.Nutriments) = true ∧
    (∀ ss ∈ (naturalServing p.ServingSize p.Nutriments).toList,
      isPer100gBlock ss = false) ∧
    item.ServingSizes.countP isPer100gBlock = 1 ∧
    item.ServingSizes.getLast? = some (per100gServing p.Nutriments) := by
  have hxs := processProduct_servingSizes p item h
  have hnat : ∀ ss ∈ (naturalServing p.ServingSize p.Nutriments).toList,
      isPer100gBlock ss = false := by
    intro ss hss
    cases hns : naturalServing p.ServingSize p.Nutriments with
    | none => rw [hns] at hss; simp at hss
    | some v =>
      rw [hns] at hss
      simp only [Option.toList_some, List.mem_singleton] at hss
      rw [hss]
      exact naturalServing_not_block p.ServingSize p.Nutriments v hns
  refine ⟨hxs, per100gServing_isBlock p.Nutriments, hnat, ?_, ?_⟩
  · rw [hxs, List.countP_append]
    cases hns : naturalServing p.ServingSize p.Nutriments with
    | none =>
      simp [List.countP_cons, per100gServing_isBlock p.Nutriments]
    | some v =>
      have hv := naturalServing_not_block p.ServingSize p.Nutriments v hns
      simp [List.countP_cons, per100gServing_isBlock p.Nutriments, hv]
  · rw [hxs]
    exact getLast?_append_singleton _ _



/-- Witness for C1 at a concrete accepted record. -/
theorem processProduct_per100g_invariant_witness :
    ProcessProduct exProduct = Except.ok exItem ∧
    exItem.ServingSizes.countP isPer100gBlock = 1 ∧
    exItem.ServingSizes.getLast? = some (per100gServing exProduct.Nutriments) := by
  have h : ProcessProduct exProduct = Except.ok exItem := by decide
  exact ⟨h, (processProduct_per100g_invariant exProduct exItem h).2.2.2⟩

/-- C2: a record whose identifier or code is empty is always rejected with
the `EmptyKeyFields` reason, whatever the other fields hold. -/
theorem processProduct_emptyKeyFields (p : OpenFoodFactsProduct)
    (h : p.ID = "" ∨ p.Code = "") :
    ProcessProduct p = Except.error EmptyKeyFields := by
  unfold ProcessProduct
  rw [if_pos h]

/-- Witness for C2: the all-defaults record is rejected. -/
theorem processProduct_emptyKeyFields_witness :
    ProcessProduct {} = Except.error EmptyKeyFields :=
  processProduct_emptyKeyFields {} (Or.inl rfl)



/-- C3 counterexample: a record with no resolvable display name and an
empty barcode is rejected with `EmptyKeyFields`, NOT with
`EmptyNameAndBarcode` — the barcode is the code field, whose emptiness
already fires the earlier check (main.go:300), so the branch of
main.go:380 cannot be reached. -/
theorem processProduct_noName_counterexample :
    resolveDisplayName noNameEmptyCodeProduct = "" ∧
    noNameEmptyCodeProduct.Code = "" ∧
    ProcessProduct noNameEmptyCodeProduct = Except.error EmptyKeyFields ∧
    ProcessProduct noNameEmptyCodeProduct ≠ Except.error EmptyNameAndBarcode := by
  refine ⟨by decide, rfl, by decide, ?_⟩
  intro hcontra
  have : EmptyKeyFields = EmptyNameAndBarcode := by
    have h1 : ProcessProduct noNameEmptyCodeProduct = Except.error EmptyKeyFields := by
      decide
    rw [h1] at hcontra
    injection hcontra
  exact absurd this (by decide)

/-- C3 (amended): a record with no resolvable display name and an empty
barcode is rejected, but with the `EmptyKeyFields` reason — never with
`EmptyNameAndBarcode`. -/
theorem processProduct_noName_emptyBarcode (p : OpenFoodFactsProduct)
    (_hname : resolveDisplayName p = "") (hcode : p.Code = "") :
    ProcessProduct p = Except.error EmptyKeyFields ∧
    ProcessProduct p ≠ Except.error EmptyNameAndBarcode := by
  have h1 : ProcessProduct p = Except.error EmptyKeyFields := by
    unfold ProcessProduct
    rw [if_pos (Or.inr hcode)]
  refine ⟨h1, ?_⟩
  rw [h1]
  intro hcontra
  injection hcontra with h2
  exact absurd h2 (by decide)

/-- Witness for the amended C3. -/
theorem processProduct_noName_emptyBarcode_witness :
    resolveDisplayName noNameEmptyCodeProduct = "" ∧
    noNameEmptyCodeProduct.Code = "" ∧
    ProcessProduct noNameEmptyCodeProduct = Except.error EmptyKeyFields := by
  refine ⟨by decide, rfl, ?_⟩
  exact (processProduct_noName_emptyBarcode noNameEmptyCodeProduct (by decide) rfl).1

/-- First-success behaviour of `mapNutrient`: present-and-coercible keys
before position `k` being absent or non-coercible, the value under `k` is
written (converted) and the keys after `k` are ignored. -/
theorem mapNutrientFirstAux (field : ℚ) (nutr : Nutriments) (conv : String)
    (ks1 : List String) (k : String) (ks2 : List String) (v : ℚ)
    (hprev : ∀ k0 ∈ ks1, ((nutr.lookup k0).bind toFloat64) = none)
    (hk : ((nutr.lookup k).bind toFloat64) = some v) :
    mapNutrient field nutr conv (ks1 ++ k :: ks2) = applyConv conv v := by
  induction ks1 with
  | nil =>
    cases hl : nutr.lookup k with
    | none => rw [hl] at hk; exact Option.noConfusion hk
    | some val =>
      rw [hl] at hk
      have hk2 : toFloat64 val = some v := hk
      simp only [List.nil_append, mapNutrient, hl, hk2]
  | cons k0 ks1 ih =>
    have h0 := hprev k0 (by simp)
    have hrest : ∀ x ∈ ks1, ((nutr.lookup x).bind toFloat64) = none :=
      fun x hx => hprev x (by simp [hx])
    cases hl : nutr.lookup k0 with
    | none =>
      simp only [List.cons_append, mapNutrient, hl]
      exact ih hrest
    | some val =>
      rw [hl] at h0
      have h02 : toFloat64 val = none := h0
      simp only [List.cons_append, mapNutrient, hl, h02]
      exact ih hrest

/-- `mapNutrient` leaves the field untouched when no key is present with a
coercible value. -/
theorem mapNutrientNoneAux (field : ℚ) (nutr : Nutriments) (conv : String)
    (keys : List String)
    (h : ∀ k ∈ keys, ((nutr.lookup k).bind toFloat64) = none) :
    mapNutrient field nutr conv keys = field := by
  induction keys with
  | nil => rfl
  | cons k ks ih =>
    have h0 := h k (by simp)
    have hrest : ∀ x ∈ ks, ((nutr.lookup x).bind toFloat64) = none :=
      fun x hx => h x (by simp [hx])
    cases hl : nutr.lookup k with
    | none =>
      simp only [mapNutrient, hl]
      exact ih hrest
    | some val =>
      rw [hl] at h0
      have h02 : toFloat64 val = none := h0
      simp only [mapNutrient, hl, h02]
      exact ih hrest

/-- C4 counterexample to the claim as stated: the key "a" IS present in
the map, yet its value fails coercion and the LATER candidate "b" is used
(main.go:540 only returns on a successful coercion, so a present but
non-coercible key does not stop the walk). -/
theorem mapNutrient_later_candidate_counterexample :
    ([("a", GoValue.other), ("b", GoValue.num 5)] : Nutriments).lookup "a" =
      some GoValue.other ∧
    mapNutrient 0 [("a", GoValue.other), ("b", GoValue.num 5)] "" ["a", "b"] = 5 ∧
    (5 : ℚ) ≠ 0 := by decide

/-- C4 (amended): `mapNutrient` assigns the destination from the first
candidate key that is present in the map AND whose value coerces, applying
the declared conversion; it writes at most once (keys after the first
success are ignored) and leaves the destination unchanged when no
candidate key is present with a coercible value. -/
theorem mapNutrient_first_present_coercible (field : ℚ) (nutr : Nutriments)
    (conv : String) :
    (∀ (ks1 : List String) (k : String) (ks2 : List String) (v : ℚ),
      (∀ k0 ∈ ks1, ((nutr.lookup k0).bind toFloat64) = none) →
      ((nutr.lookup k).bind toFloat64) = some v →
      mapNutrient field nutr conv (ks1 ++ k :: ks2) = applyConv conv v) ∧
    (∀ keys : List String,
      (∀ k ∈ keys, ((nutr.lookup k).bind toFloat64) = none) →
      mapNutrient field nutr conv keys = field) :=
  ⟨fun ks1 k ks2 v h1 h2 => mapNutrientFirstAux field nutr conv ks1 k ks2 v h1 h2,
   fun keys h => mapNutrientNoneAux field nutr conv keys h⟩

/-- Witness for the amended C4: over the map a↦(non-coercible), b↦5, the
key list ["a", "b"] writes 5 from "b". -/
theorem mapNutrient_first_present_coercible_witness :
    (∀ k0 ∈ (["a"] : List String),
      ((([("a", GoValue.other), ("b", GoValue.num 5)] : Nutriments).lookup k0).bind
        toFloat64) = none) ∧
    ((([("a", GoValue.other), ("b", GoValue.num 5)] : Nutriments).lookup "b").bind
      toFloat64) = some 5 ∧
    mapNutrient 0 [("a", GoValue.other), ("b", GoValue.num 5)] ""
      (["a"] ++ "b" :: []) = applyConv "" 5 := by
  refine ⟨by decide, by decide, ?_⟩
  exact (mapNutrient_first_present_coercible 0
    [("a", GoValue.other), ("b", GoValue.num 5)] "").1 ["a"] "b" [] 5
    (by decide) (by decide)

/-- C5: in both emitted blocks — per-100g and natural alike — an extracted
calorie value of exactly 0 makes the final calorie value
protein*4 + fat*9 + carbs*4, by the identical back-fill rule. -/
theorem calorieBackfill_bothBlocks (n : Nutriments) (s : String)
    (ss : ServingSize) :
    ((per100gExtracted n).Calories = 0 →
      (per100gServing n).Calories =
        (per100gServing n).Protein * 4 + (per100gServing n).Fat * 9 +
          (per100gServing n).Carbs * 4) ∧
    (naturalExtracted s n = some ss → ss.Calories = 0 →
      naturalServing s n = some (backfillCalories ss) ∧
      (backfillCalories ss).Calories =
        (backfillCalories ss).Protein * 4 + (backfillCalories ss).Fat * 9 +
          (backfillCalories ss).Carbs * 4) := by
  constructor
  · intro h0
    unfold per100gServing backfillCalories
    rw [if_pos h0]
  · intro hx h0
    constructor
    · unfold naturalServing
      rw [hx]
      rfl
    · unfold backfillCalories
      rw [if_pos h0]



/-- Witness for C5, at the per-100g block of the empty nutrient map and at
the natural block of "2 SLICES (57 g)". -/
theorem calorieBackfill_bothBlocks_witness :
    (per100gExtracted []).Calories = 0 ∧
    (per100gServing []).Calories =
      (per100gServing []).Protein * 4 + (per100gServing []).Fat * 9 +
        (per100gServing []).Carbs * 4 ∧
    naturalExtracted "2 SLICES (57 g)" [] = some twoSlicesBlock ∧
    twoSlicesBlock.Calories = 0 ∧
    naturalServing "2 SLICES (57 g)" [] = some (backfillCalories twoSlicesBlock) := by
  refine ⟨by decide, ?_, by decide, by decide, ?_⟩
  · exact (calorieBackfill_bothBlocks [] "" twoSlicesBlock).1 (by decide)
  · exact ((calorieBackfill_bothBlocks [] "2 SLICES (57 g)" twoSlicesBlock).2
      (by decide) (by decide)).1

/-- C6: "2 SLICES (57 g)" parses to quantity 2, raw label "SLICES", weight
57 grams and class Other (3); after the orchestrator's display casing the
kept natural block carries the label "Slices". -/
theorem parse_twoSlices :
    parseServingSize "2 SLICES (57 g)" = (2, "SLICES", 57, 3) ∧
    ∃ ss, naturalServing "2 SLICES (57 g)" [] = some ss ∧
      ss.Quantity = 2 ∧ ss.MeasurementUnit = "Slices" ∧
      ss.WeightInGrams = 57 ∧ ss.ServingType = 3 :=
  ⟨by decide, backfillCalories (naturalBlockExtracted "Slices" 3 2 57 []), by decide⟩

/-- C7: "200g" collapses to 1 "Serving" of 200 grams, class Other (3) —
pattern 1 fires because the computed grams equal the numeric value. -/
theorem parse_bareWeight_collapse :
    parseServingSize "200g" = (1, "Serving", 200, 3) ∧
    match1 (cleanServing "200g".data) = some (200, "g".data) ∧
    convertToGrams 200 "g" = 200 := by decide



/-- C8 counterexample to the claim as stated: "abc(def," matches no
pattern, and the returned unit label is the CLEANED string "abc(def."
(the comma became a period), not the original input. -/
theorem parse_unmatched_counterexample :
    parseServingSize "abc(def," = (1, "abc(def.", 0, 3) ∧
    noPatternMatches (cleanServing "abc(def,".data) ∧
    ("abc(def." : String) ≠ "abc(def," := by decide

/-- C8 (amended): parse("") yields quantity 1, empty label, weight 0,
class Other; and for every input that no structural pattern matches (after
cleaning), the CLEANED input string becomes the unit label with quantity
1, weight 0, class Other. -/
theorem parse_unmatched_fallback :
    parseServingSize "" = (1, "", 0, 3) ∧
    ∀ s : String, noPatternMatches (cleanServing s.data) →
      parseServingSize s = (1, String.mk (cleanServing s.data), 0, 3) := by
  refine ⟨by decide, ?_⟩
  intro s h
  obtain ⟨h1, h2, h3, h4, h5, h6, h7, h8, h9, h10⟩ := h
  unfold parseServingSize
  simp only [parseStage1, parseStage2, parseStage3, parseStage4, parseStage5,
    parseStage6, parseStage7, parseStage8, parseStage9, parseStage10,
    parseDefault, h1, h2, h3, h4, h5, h6, h7, h8, h9, h10]

/-- Witness for the amended C8 at "abc(def" (unchanged by cleaning). -/
theorem parse_unmatched_fallback_witness :
    noPatternMatches (cleanServing "abc(def".data) ∧
    parseServingSize "abc(def" = (1, String.mk (cleanServing "abc(def".data), 0, 3) ∧
    String.mk (cleanServing "abc(def".data) = "abc(def" := by
  refine ⟨by decide, ?_, by decide⟩
  exact parse_unmatched_fallback.2 "abc(def" (by decide)

/-- C9: `normalizeAllergen "EN:Milk"` is "milk"; on any dictionary miss
(after trimming, upper-casing and stripping a leading "EN:")
`normalizeAllergen` returns the lower-cased original and
`extractIngredientAllergen` returns the empty string. -/
theorem allergen_normalization :
    normalizeAllergen "EN:Milk" = "milk" ∧
    normalizeAllergen "unknown_thing" = "unknown_thing" ∧
    extractIngredientAllergen "en:unknown_thing" = "" ∧
    ∀ s : String, AllergenMap.lookup (allergenKey s) = none →
      normalizeAllergen s = goToLower s ∧ extractIngredientAllergen s = "" := by
  refine ⟨by decide, by decide, by decide, ?_⟩
  intro s h
  unfold normalizeAllergen extractIngredientAllergen
  rw [h]
  exact ⟨rfl, rfl⟩

/-- Witness for C9 at the miss "en:unknown_thing". -/
theorem allergen_normalization_witness :
    AllergenMap.lookup (allergenKey "en:unknown_thing") = none ∧
    normalizeAllergen "en:unknown_thing" = goToLower "en:unknown_thing" ∧
    extractIngredientAllergen "en:unknown_thing" = "" := by
  refine ⟨by decide, ?_, ?_⟩
  · exact (allergen_normalization.2.2.2 "en:unknown_thing" (by decide)).1
  · exact (allergen_normalization.2.2.2 "en:unknown_thing" (by decide)).2



/-- C10 (code bug): `ProcessProduct` accepts this record, and afterwards
the caller's `AllergensTags` slice no longer holds its original contents —
the normalization loop of main.go:388-390 writes the normalized tokens
through the slice's shared backing array, so the input is mutated in
place, contrary to the read-only contract. -/
theorem processProduct_mutates_input :
    milkTagProduct.AllergensTags = ["en:milk"] ∧
    allergensTagsAfter milkTagProduct = ["milk"] ∧
    allergensTagsAfter milkTagProduct ≠ milkTagProduct.AllergensTags ∧
    (ProcessProduct milkTagProduct).toOption.isSome = true := by decide
